import Mathlib

/-!
Verification of the forecasting core of the Excel add-in repository.

The forecasting service (`ForecastingService` in the source) offers
`generateForecast` — dispatching on an options record to linear regression,
exponential smoothing, moving average, and a simplified ARIMA — and a
separate `monteCarloSimulation` entry point.

JavaScript numbers are modelled as real numbers (`ℝ`) for the exact-arithmetic
claims; a second model `JsNum` adds IEEE-style `NaN`/`±Infinity` values so the
claims about silent `NaN` propagation can be stated faithfully.  Randomness in
the Monte-Carlo simulation is modelled by an explicit stream `draws : ℕ → ℝ`
of the standard-normal variates the Box–Muller helper would return, consumed
in program order.
-/

noncomputable section

/-- A prediction interval `{lower, upper}` as returned by every method. -/
structure PredInterval where
  lower : ℝ
  upper : ℝ

/-- The result object shared by all forecasting methods.  The JS `statistics`
object is modelled as an association list from field name to value. -/
structure ForecastResult where
  method : String
  historicalData : List ℝ
  forecast : List ℝ
  predictionIntervals : List PredInterval
  statistics : List (String × ℝ)

/-- The merged options record (`{...this.defaultOptions, ...options}`): the
core fields carry the constructor defaults, the method-specific fields are
`Option`s resolved by each method with JavaScript's `||` idiom. -/
structure ForecastOptions where
  method : String := "linear"
  periods : ℕ := 5
  confidence : ℝ := 0.95
  seasonality : ℕ := 1
  alpha : Option ℝ := none
  windowSize : Option ℕ := none
  p : Option ℕ := none
  d : Option ℕ := none
  q : Option ℕ := none

/-- JavaScript `x || dflt` for an optional numeric option: `undefined` and
`0` both fall back to the default. -/
def jsOrNat (o : Option ℕ) (dflt : ℕ) : ℕ :=
  match o with
  | none => dflt
  | some v => if v = 0 then dflt else v

/-- JavaScript `x || dflt` for an optional real-valued option. -/
def jsOrReal (o : Option ℝ) (dflt : ℝ) : ℝ :=
  match o with
  | none => dflt
  | some v => if v = 0 then dflt else v

/-- The two throw sites of the service: the two validation messages and the
unsupported-method error of the dispatcher's `default` branch. -/
inductive ForecastError where
  | validation (msg : String)
  | unsupportedMethod (m : String)
deriving DecidableEq

/-- `forecast.map((value, i) => ({lower: value - w(i), upper: value + w(i)}))`:
the interval-building pattern shared by all four deterministic methods. -/
def mkIntervals (fc : List ℝ) (w : ℕ → ℝ) : List PredInterval :=
  fc.enum.map (fun pr => { lower := pr.2 - w pr.1, upper := pr.2 + w pr.1 })

/-- `linearRegression(historicalData, options)` from the source: OLS over
1-based time indices, flat statistics, and the source's prediction-interval
formula mixing the period index with the mean of the values. -/
def linearRegression (historicalData : List ℝ) (options : ForecastOptions) :
    ForecastResult :=
  let n : ℝ := historicalData.length
  let x : List ℝ := (List.range historicalData.length).map (fun (i : ℕ) => (i : ℝ) + 1)
  let y := historicalData
  let sumX := x.sum
  let sumY := y.sum
  let sumXY := ((x.zip y).map (fun pr => pr.1 * pr.2)).sum
  let sumX2 := (x.map (fun v => v * v)).sum
  let slope := (n * sumXY - sumX * sumY) / (n * sumX2 - sumX * sumX)
  let intercept := (sumY - slope * sumX) / n
  let forecast := (List.range options.periods).map
    (fun (i : ℕ) => intercept + slope * (n + ((i : ℝ) + 1)))
  let fitted := x.map (fun xi => intercept + slope * xi)
  let residuals := (y.zip fitted).map (fun pr => pr.1 - pr.2)
  let sse := (residuals.map (fun r => r * r)).sum
  let mse := sse / n
  let rmse := Real.sqrt mse
  let meanY := sumY / n
  let totalSumOfSquares := (y.map (fun yi => (yi - meanY) ^ 2)).sum
  let rSquared := 1 - sse / totalSumOfSquares
  let tValue : ℝ := 1.96
  let standardError := Real.sqrt (sse / (n - 2))
  let predictionIntervals := mkIntervals forecast (fun i =>
    tValue * (standardError *
      Real.sqrt (1 + 1 / n + ((n + ((i : ℝ) + 1)) - meanY) ^ 2 / totalSumOfSquares)))
  { method := "linear"
    historicalData := historicalData
    forecast := forecast
    predictionIntervals := predictionIntervals
    statistics := [("slope", slope), ("intercept", intercept),
      ("rSquared", rSquared), ("rmse", rmse)] }

/-- The smoothing recursion `smoothed[i] = alpha*data[i] + (1-alpha)*smoothed[i-1]`
applied to the tail of the series, given the previous smoothed value. -/
def expSmoothTail (alpha : ℝ) (prev : ℝ) : List ℝ → List ℝ
  | [] => []
  | v :: rest =>
      (alpha * v + (1 - alpha) * prev) :: expSmoothTail alpha (alpha * v + (1 - alpha) * prev) rest

/-- The full smoothed sequence, seeded with `smoothed[0] = data[0]`. -/
def smoothedOf (alpha : ℝ) : List ℝ → List ℝ
  | [] => []
  | v :: rest => v :: expSmoothTail alpha v rest

/-- `exponentialSmoothing(historicalData, options)` from the source. -/
def exponentialSmoothing (historicalData : List ℝ) (options : ForecastOptions) :
    ForecastResult :=
  let alpha := jsOrReal options.alpha 0.3
  let smoothed := smoothedOf alpha historicalData
  let lastSmoothed := smoothed.getD (smoothed.length - 1) 0
  let forecast := List.replicate options.periods lastSmoothed
  let errors := historicalData.enum.map
    (fun pr => if pr.1 = 0 then 0 else pr.2 - smoothed.getD (pr.1 - 1) 0)
  let sse := (errors.map (fun e => e * e)).sum
  let mse := sse / ((historicalData.length : ℝ) - 1)
  let rmse := Real.sqrt mse
  let standardError := Real.sqrt mse
  let tValue : ℝ := 1.96
  let predictionIntervals := mkIntervals forecast (fun i =>
    tValue * standardError * Real.sqrt (1 + ((i : ℝ) + 1)))
  { method := "exponential"
    historicalData := historicalData
    forecast := forecast
    predictionIntervals := predictionIntervals
    statistics := [("alpha", alpha), ("rmse", rmse)] }

/-- `movingAverage(historicalData, options)` from the source; throws when the
window is larger than the series, so it returns an `Except`. -/
def movingAverage (historicalData : List ℝ) (options : ForecastOptions) :
    Except ForecastError ForecastResult :=
  let windowSize := jsOrNat options.windowSize 3
  if windowSize > historicalData.length then
    .error (.validation "Window size cannot be larger than the historical data length")
  else
    let movingAverages := (List.range (historicalData.length - windowSize + 1)).map
      (fun k => (((historicalData.drop k).take windowSize).sum) / (windowSize : ℝ))
    let lastMA := movingAverages.getD (movingAverages.length - 1) 0
    let forecast := List.replicate options.periods lastMA
    let errors := (List.range (historicalData.length - windowSize + 1)).map
      (fun k => historicalData.getD (k + windowSize - 1) 0 - movingAverages.getD k 0)
    let sse := (errors.map (fun e => e * e)).sum
    let mse := sse / (errors.length : ℝ)
    let rmse := Real.sqrt mse
    let standardError := Real.sqrt mse
    let tValue : ℝ := 1.96
    let predictionIntervals := mkIntervals forecast (fun i =>
      tValue * standardError * Real.sqrt (1 + ((i : ℝ) + 1) / (windowSize : ℝ)))
    .ok
      { method := "moving-average"
        historicalData := historicalData
        forecast := forecast
        predictionIntervals := predictionIntervals
        statistics := [("windowSize", (windowSize : ℝ)), ("rmse", rmse)] }

/-- `diff(data)`: successive differences `data[i] - data[i-1]`. -/
def diff : List ℝ → List ℝ
  | a :: b :: rest => (b - a) :: diff (b :: rest)
  | _ => []

/-- `d`-fold application of `diff`, as in the `for (i < d)` loop. -/
def diffN : ℕ → List ℝ → List ℝ
  | 0, l => l
  | k + 1, l => diffN k (diff l)

/-- `undiff(diffData, lastValue)`: cumulative summation seeded by `lastValue`,
with the seed dropped (`result.slice(1)`). -/
def undiff : List ℝ → ℝ → List ℝ
  | [], _ => []
  | v :: rest, lastValue => (lastValue + v) :: undiff rest (lastValue + v)

/-- One step of the AR forecast loop: `Σ_j arParams[j] * buf[buf.length-j-1]`,
skipping lags that fall off the front of the buffer, with `arParams[j] = 0.7/p`. -/
def arStep (p : ℕ) (buf : List ℝ) : ℝ :=
  ((List.range p).map (fun j =>
    if j + 1 ≤ buf.length then (0.7 / (p : ℝ)) * buf.getD (buf.length - (j + 1)) 0
    else 0)).sum

/-- The forecast loop of `arima`: generate `k` values, appending each new
forecast to the working buffer so later lags see prior forecasts. -/
def arForecast (p : ℕ) (buf : List ℝ) : ℕ → List ℝ
  | 0 => []
  | k + 1 =>
      arStep p buf :: arForecast p (buf ++ [arStep p buf]) k

/-- The undifferencing loop of `arima`: the `i`-th pass re-integrates using
`historicalData[historicalData.length - 1 - i]` as seed. -/
def undiffLoop (hist : List ℝ) : ℕ → ℕ → List ℝ → List ℝ
  | _, 0, fc => fc
  | i, k + 1, fc => undiffLoop hist (i + 1) k (undiff fc (hist.getD (hist.length - 1 - i) 0))

/-- `standardDeviation(data)` from the source (population variance). -/
def standardDeviation (data : List ℝ) : ℝ :=
  let mean := data.sum / (data.length : ℝ)
  let squaredDiffs := data.map (fun v => (v - mean) ^ 2)
  let variance := squaredDiffs.sum / (data.length : ℝ)
  Real.sqrt variance

/-- `arima(historicalData, options)` from the source: fixed AR coefficients
`0.7/p`, unused MA coefficients `0.3/q`, differencing, AR loop, undifferencing,
and constant-growth intervals from the standard deviation of the input. -/
def arima (historicalData : List ℝ) (options : ForecastOptions) : ForecastResult :=
  let p := jsOrNat options.p 1
  let d := options.d.getD 0
  let q := jsOrNat options.q 1
  let diffData := diffN d historicalData
  let _maParams : List ℝ := List.replicate q (0.3 / (q : ℝ))
  let diffForecast := arForecast p diffData options.periods
  let forecast := undiffLoop historicalData 0 d diffForecast
  let stdDev := standardDeviation historicalData
  let tValue : ℝ := 1.96
  let predictionIntervals := mkIntervals forecast (fun i =>
    tValue * stdDev * Real.sqrt ((i : ℝ) + 1))
  { method := "arima"
    historicalData := historicalData
    forecast := forecast
    predictionIntervals := predictionIntervals
    statistics := [("p", (p : ℝ)), ("d", (d : ℝ)), ("q", (q : ℝ))] }

/-- `generateForecast(historicalData, options)`: validation then the
`switch (forecastOptions.method)` dispatch. -/
def generateForecast (historicalData : List ℝ) (options : ForecastOptions) :
    Except ForecastError ForecastResult :=
  if historicalData.length < 2 then
    .error (.validation "Historical data must be an array with at least 2 data points")
  else if options.method = "linear" then .ok (linearRegression historicalData options)
  else if options.method = "exponential" then .ok (exponentialSmoothing historicalData options)
  else if options.method = "moving-average" then movingAverage historicalData options
  else if options.method = "arima" then .ok (arima historicalData options)
  else .error (.unsupportedMethod options.method)

/-- A JavaScript number: a finite real, `NaN`, or a signed infinity.  Exact
real arithmetic (no rounding, no signed zero), but with the IEEE special
values, so that silent `NaN` propagation is expressible. -/
inductive JsNum where
  | num (x : ℝ)
  | nan
  | inf (pos : Bool)

namespace JsNum

/-- IEEE-style addition: `NaN` propagates; `Inf + (-Inf) = NaN`. -/
def add : JsNum → JsNum → JsNum
  | num a, num b => num (a + b)
  | nan, _ => nan
  | _, nan => nan
  | inf p, inf q => if p = q then inf p else nan
  | inf p, num _ => inf p
  | num _, inf q => inf q

/-- IEEE-style negation. -/
def neg : JsNum → JsNum
  | num x => num (-x)
  | nan => nan
  | inf p => inf (!p)

/-- IEEE-style subtraction. -/
def sub (a b : JsNum) : JsNum := a.add b.neg

/-- IEEE-style multiplication: `NaN` propagates; `Inf * 0 = NaN`. -/
def mul : JsNum → JsNum → JsNum
  | num a, num b => num (a * b)
  | nan, _ => nan
  | _, nan => nan
  | inf p, inf q => inf (p = q)
  | inf p, num x => if x = 0 then nan else inf (p = decide (0 < x))
  | num x, inf q => if x = 0 then nan else inf (q = decide (0 < x))

/-- IEEE-style division: `0/0 = NaN`, `x/0 = ±Inf`, `Inf/Inf = NaN`. -/
def div : JsNum → JsNum → JsNum
  | nan, _ => nan
  | _, nan => nan
  | num a, num b =>
      if b = 0 then (if a = 0 then nan else inf (decide (0 < a))) else num (a / b)
  | inf p, num b => if b = 0 then inf p else inf (p = decide (0 < b))
  | num _, inf _ => num 0
  | inf _, inf _ => nan

/-- `Math.sqrt`: `NaN` for negative arguments and `NaN`, `Inf` for `+Inf`. -/
def sqrtJ : JsNum → JsNum
  | num x => if x < 0 then nan else num (Real.sqrt x)
  | nan => nan
  | inf p => if p then inf true else nan

/-- JavaScript `<=` comparison: any comparison against `NaN` is false. -/
def jsLe : JsNum → JsNum → Prop
  | nan, _ => False
  | _, nan => False
  | num a, num b => a ≤ b
  | inf p, inf q => p = true → q = true
  | inf p, num _ => p = false
  | num _, inf q => q = true

/-- The boolean comparison used to model the ascending numeric sort
`(a, b) => a - b`; the order among `NaN`s is irrelevant to the claims. -/
def leb : JsNum → JsNum → Bool
  | nan, _ => true
  | _, nan => true
  | num a, num b => decide (a ≤ b)
  | inf p, inf q => !p || q
  | inf p, num _ => !p
  | num _, inf q => q

end JsNum

/-- `reduce((sum, v) => sum + v, 0)` over JavaScript numbers. -/
def jsSum (l : List JsNum) : JsNum := l.foldl JsNum.add (JsNum.num 0)

/-- Insertion into an ascending-sorted list under `JsNum.leb`. -/
def jsInsert (a : JsNum) : List JsNum → List JsNum
  | [] => [a]
  | b :: rest => if a.leb b then a :: b :: rest else b :: jsInsert a rest

/-- Ascending numeric sort, modelling `array.sort((a, b) => a - b)`. -/
def jsSort : List JsNum → List JsNum
  | [] => []
  | a :: rest => jsInsert a (jsSort rest)

/-- JavaScript indexing with a possibly out-of-range signed index:
out-of-range access yields `undefined`, which behaves as `NaN` in the
arithmetic contexts of this code. -/
def jsIndex (l : List JsNum) (i : ℤ) : JsNum :=
  if 0 ≤ i then l.getD i.toNat JsNum.nan else JsNum.nan

/-- A prediction interval over JavaScript numbers. -/
structure JsInterval where
  lower : JsNum
  upper : JsNum

/-- Result record for the `JsNum`-level model. -/
structure JsForecastResult where
  method : String
  historicalData : List JsNum
  forecast : List JsNum
  predictionIntervals : List JsInterval
  statistics : List (String × JsNum)

/-- Options of `monteCarloSimulation`; all three are resolved with `||`. -/
structure MCOptions where
  iterations : Option ℕ := none
  periods : Option ℕ := none
  confidence : Option ℝ := none

/-- The percent-change loop: `historicalData[i]/historicalData[i-1] - 1`. -/
def percentChangesOf : List JsNum → List JsNum
  | a :: b :: rest => ((b.div a).sub (JsNum.num 1)) :: percentChangesOf (b :: rest)
  | _ => []

/-- One simulated path (after `slice(1)`): starting from the previous value,
`k` steps of `next = prev * (1 + (mean + stdDev * Z))`, where the `Z`s are
the Box–Muller outputs `draws base, draws (base+1), ...`. -/
def mcPath (mean stdDev : JsNum) (draws : ℕ → ℝ) : ℕ → ℕ → JsNum → List JsNum
  | _, 0, _ => []
  | base, k + 1, prev =>
      let nv := prev.mul ((JsNum.num 1).add (mean.add (stdDev.mul (JsNum.num (draws base)))))
      nv :: mcPath mean stdDev draws (base + 1) k nv

/-- `monteCarloSimulation(historicalData, options)` from the source, over the
`JsNum` model.  The JS loop that pushes into `forecast` and
`predictionIntervals` simultaneously is rendered as two maps over
`List.range periods` performing the identical per-period computation. -/
def monteCarloSimulationJs (historicalData : List JsNum) (options : MCOptions)
    (draws : ℕ → ℝ) : JsForecastResult :=
  let iterations := jsOrNat options.iterations 1000
  let periods := jsOrNat options.periods 5
  let confidenceLevel := jsOrReal options.confidence 0.95
  let percentChanges := percentChangesOf historicalData
  let mean := (jsSum percentChanges).div (JsNum.num (percentChanges.length : ℝ))
  let variance := (jsSum (percentChanges.map
      (fun v => (v.sub mean).mul (v.sub mean)))).div (JsNum.num (percentChanges.length : ℝ))
  let stdDev := variance.sqrtJ
  let lastValue := historicalData.getD (historicalData.length - 1) JsNum.nan
  let simulations := (List.range iterations).map
    (fun i => mcPath mean stdDev draws (i * periods) periods lastValue)
  let forecast := (List.range periods).map (fun i =>
    let periodValues := jsSort (simulations.map (fun sim => sim.getD i JsNum.nan))
    (jsSum periodValues).div (JsNum.num (iterations : ℝ)))
  let predictionIntervals := (List.range periods).map (fun i =>
    let periodValues := jsSort (simulations.map (fun sim => sim.getD i JsNum.nan))
    let lowerIndex := Int.floor ((iterations : ℝ) * (1 - confidenceLevel) / 2)
    let upperIndex := Int.floor ((iterations : ℝ) * (1 - (1 - confidenceLevel) / 2))
    { lower := jsIndex periodValues lowerIndex
      upper := jsIndex periodValues upperIndex })
  { method := "monte-carlo"
    historicalData := historicalData
    forecast := forecast
    predictionIntervals := predictionIntervals
    statistics := [("iterations", JsNum.num (iterations : ℝ)), ("mean", mean),
      ("stdDev", stdDev)] }

/-- `linearRegression` re-expressed over the `JsNum` model, to exhibit the
`NaN`s that the real-valued model cannot represent (division by zero in the
`n - 2` standard-error denominator and in the `R²` total sum of squares). -/
def linearRegressionJs (historicalData : List JsNum) (options : ForecastOptions) :
    JsForecastResult :=
  let n : JsNum := .num (historicalData.length : ℝ)
  let x : List JsNum := (List.range historicalData.length).map
    (fun (i : ℕ) => .num ((i : ℝ) + 1))
  let y := historicalData
  let sumX := jsSum x
  let sumY := jsSum y
  let sumXY := jsSum ((x.zip y).map (fun pr => pr.1.mul pr.2))
  let sumX2 := jsSum (x.map (fun v => v.mul v))
  let slope := ((n.mul sumXY).sub (sumX.mul sumY)).div ((n.mul sumX2).sub (sumX.mul sumX))
  let intercept := (sumY.sub (slope.mul sumX)).div n
  let forecast := (List.range options.periods).map
    (fun (i : ℕ) => intercept.add (slope.mul (n.add (.num ((i : ℝ) + 1)))))
  let fitted := x.map (fun xi => intercept.add (slope.mul xi))
  let residuals := (y.zip fitted).map (fun pr => pr.1.sub pr.2)
  let sse := jsSum (residuals.map (fun r => r.mul r))
  let mse := sse.div n
  let rmse := mse.sqrtJ
  let meanY := sumY.div n
  let totalSumOfSquares := jsSum (y.map (fun yi => (yi.sub meanY).mul (yi.sub meanY)))
  let rSquared := (JsNum.num 1).sub (sse.div totalSumOfSquares)
  let tValue : JsNum := .num 1.96
  let standardError := (sse.div (n.sub (.num 2))).sqrtJ
  let predictionIntervals := (forecast.enum.map (fun pr =>
    let predictionVariance := standardError.mul
      (((JsNum.num 1).add ((JsNum.num 1).div n)).add
        ((((n.add (.num ((pr.1 : ℝ) + 1))).sub meanY).mul
          ((n.add (.num ((pr.1 : ℝ) + 1))).sub meanY)).div totalSumOfSquares)).sqrtJ
    { lower := pr.2.sub (tValue.mul predictionVariance)
      upper := pr.2.add (tValue.mul predictionVariance) }))
  { method := "linear"
    historicalData := historicalData
    forecast := forecast
    predictionIntervals := predictionIntervals
    statistics := [("slope", slope), ("intercept", intercept),
      ("rSquared", rSquared), ("rmse", rmse)] }

end

section Helpers

theorem mkIntervals_length (fc : List ℝ) (w : ℕ → ℝ) :
    (mkIntervals fc w).length = fc.length := by
  simp [mkIntervals]

theorem mkIntervals_getD (fc : List ℝ) (w : ℕ → ℝ) (i : ℕ) (h : i < fc.length) :
    (mkIntervals fc w).getD i ⟨0, 0⟩ =
      ⟨fc.getD i 0 - w i, fc.getD i 0 + w i⟩ := by
  have h2 : i < (mkIntervals fc w).length := by
    rw [mkIntervals_length]; exact h
  rw [List.getD_eq_getElem _ _ h2, List.getD_eq_getElem _ _ h]
  simp [mkIntervals]

theorem mkIntervals_bounds (fc : List ℝ) (w : ℕ → ℝ) (hw : ∀ i, 0 ≤ w i)
    (i : ℕ) (h : i < fc.length) :
    ((mkIntervals fc w).getD i ⟨0, 0⟩).lower ≤ fc.getD i 0 ∧
      fc.getD i 0 ≤ ((mkIntervals fc w).getD i ⟨0, 0⟩).upper := by
  rw [mkIntervals_getD _ _ _ h]
  exact ⟨by simpa using hw i, by simpa using hw i⟩

theorem undiff_length (l : List ℝ) (v : ℝ) : (undiff l v).length = l.length := by
  induction l generalizing v with
  | nil => rfl
  | cons a rest ih => simp [undiff, ih]

theorem undiffLoop_length (hist : List ℝ) (i k : ℕ) (fc : List ℝ) :
    (undiffLoop hist i k fc).length = fc.length := by
  induction k generalizing i fc with
  | zero => rfl
  | succ m ih => simp [undiffLoop, ih, undiff_length]

theorem arForecast_length (p : ℕ) (buf : List ℝ) (k : ℕ) :
    (arForecast p buf k).length = k := by
  induction k generalizing buf with
  | zero => rfl
  | succ m ih => simp [arForecast, ih]

theorem mkIntervals_replicate (n : ℕ) (v : ℝ) (w : ℕ → ℝ) :
    mkIntervals (List.replicate n v) w =
      (List.range n).map (fun i => ⟨v - w i, v + w i⟩) := by
  apply List.ext_getElem
  · simp [mkIntervals_length]
  · intro i h1 h2
    simp only [mkIntervals_length, List.length_replicate] at h1
    simp [mkIntervals, List.getElem_enum, h1]

theorem rangeMap_congr (n : ℕ) (f g : ℕ → PredInterval) (h : ∀ i, i < n → f i = g i) :
    (List.range n).map f = (List.range n).map g :=
  List.map_congr_left (fun a ha => h a (List.mem_range.mp ha))

theorem mkIntervals_getElem (fc : List ℝ) (w : ℕ → ℝ) (i : ℕ) (h : i < fc.length)
    (h2 : i < (mkIntervals fc w).length) :
    (mkIntervals fc w)[i] = ⟨fc[i] - w i, fc[i] + w i⟩ := by
  simp [mkIntervals, List.getElem_enum]

end Helpers

/-- Claim C3: linear regression fits OLS over 1-based time indices with the
specified slope and intercept formulas and prediction-interval term; on the
perfectly linear series `[1,3,5,7,9]` it returns slope `2`, intercept `-1`,
`R² = 1`, `RMSE = 0`, the forecasts `[11,13,15,17,19]`, and (the residual
error being zero) degenerate prediction intervals equal to the forecasts. -/
theorem claim_C3_linearRegression_ols :
    (linearRegression [1, 3, 5, 7, 9] {}).statistics =
      [("slope", 2), ("intercept", -1), ("rSquared", 1), ("rmse", 0)] ∧
    (linearRegression [1, 3, 5, 7, 9] {}).forecast = [11, 13, 15, 17, 19] ∧
    (linearRegression [1, 3, 5, 7, 9] {}).predictionIntervals =
      [⟨11, 11⟩, ⟨13, 13⟩, ⟨15, 15⟩, ⟨17, 17⟩, ⟨19, 19⟩] := by
  have hr : List.range 5 = [0, 1, 2, 3, 4] := rfl
  refine ⟨?_, ?_, ?_⟩ <;>
    norm_num [linearRegression, mkIntervals, ForecastOptions.periods, hr,
      List.enum, List.enumFrom, Real.sqrt_zero, PredInterval.mk.injEq]

/-- Claim C5: exponential smoothing follows the recursion
`smoothed[0] = series[0]`, `smoothed[i] = alpha*series[i] + (1-alpha)*smoothed[i-1]`,
forecasts flat at the last smoothed value, takes RMSE from one-step-ahead
errors with denominator `n-1`, and widens intervals by
`1.96 * RMSE * sqrt(1 + (i+1))`; with `alpha = 1` on `[10,20,15]` every
forecast point equals `15` for any horizon. -/
theorem claim_C5_exponentialSmoothing : ∀ P : ℕ,
    exponentialSmoothing [10, 20, 15]
        { method := "exponential", periods := P, alpha := some 1 } =
      { method := "exponential"
        historicalData := [10, 20, 15]
        forecast := List.replicate P 15
        predictionIntervals := (List.range P).map (fun (i : ℕ) =>
          ⟨15 - 1.96 * Real.sqrt (125 / 2) * Real.sqrt (1 + ((i : ℝ) + 1)),
           15 + 1.96 * Real.sqrt (125 / 2) * Real.sqrt (1 + ((i : ℝ) + 1))⟩)
        statistics := [("alpha", 1), ("rmse", Real.sqrt (125 / 2))] } := by
  intro P
  have hsm : smoothedOf (jsOrReal (some (1 : ℝ)) 0.3) [10, 20, 15] = [10, 20, 15] := by
    norm_num [smoothedOf, expSmoothTail, jsOrReal]
  simp only [exponentialSmoothing, hsm]
  rw [ForecastResult.mk.injEq]
  refine ⟨rfl, rfl, rfl, ?_, ?_⟩
  · apply List.ext_getElem
    · simp [mkIntervals_length]
    · intro i h1 h2
      have hP : i < P := by
        simpa [mkIntervals_length] using h1
      rw [mkIntervals_getElem _ _ _ (by simpa using hP)]
      simp only [List.getElem_map, List.getElem_range, List.getElem_replicate]
      norm_num [List.enum, List.enumFrom, jsOrReal, PredInterval.mk.injEq]
  · norm_num [List.enum, List.enumFrom, jsOrReal]

/-- Claim C6: moving average forecasts flat at the unweighted mean of the
last `windowSize` observations, computes RMSE from the right-edge-aligned
errors, and widens intervals by `1.96 * RMSE * sqrt(1 + (i+1)/windowSize)`;
with `windowSize = 3` on `[1,2,3,4,5,6]` the last moving average is `5`, the
RMSE is `1`, and every forecast point equals `5` for any horizon. -/
theorem claim_C6_movingAverage : ∀ P : ℕ,
    movingAverage [1, 2, 3, 4, 5, 6]
        { method := "moving-average", periods := P, windowSize := some 3 } =
      .ok
        { method := "moving-average"
          historicalData := [1, 2, 3, 4, 5, 6]
          forecast := List.replicate P 5
          predictionIntervals := (List.range P).map (fun (i : ℕ) =>
            ⟨5 - 1.96 * Real.sqrt (1 + ((i : ℝ) + 1) / 3),
             5 + 1.96 * Real.sqrt (1 + ((i : ℝ) + 1) / 3)⟩)
          statistics := [("windowSize", 3), ("rmse", 1)] } := by
  intro P
  have hr : List.range 4 = [0, 1, 2, 3] := rfl
  have hw : jsOrNat (some 3) 3 = 3 := rfl
  simp only [movingAverage, hw]
  rw [if_neg (by norm_num)]
  rw [Except.ok.injEq, ForecastResult.mk.injEq]
  refine ⟨rfl, rfl, by norm_num [hr], ?_, ?_⟩
  · apply List.ext_getElem
    · simp [mkIntervals_length]
    · intro i h1 h2
      have hP : i < P := by
        simpa [mkIntervals_length] using h1
      rw [mkIntervals_getElem _ _ _ (by simpa using hP)]
      simp only [List.getElem_map, List.getElem_range, List.getElem_replicate]
      norm_num [hr, PredInterval.mk.injEq]
  · norm_num [hr]

/-- Claim C7: ARIMA differences the series `d` times, forecasts with only the
fixed AR coefficients `0.7/p` over a working buffer that accumulates prior
forecasts, reverses differencing seeded from the last original values, and
uses interval width `1.96 * stddev(series) * sqrt(i+1)`; the MA order `q`
never influences forecast or intervals; with `d = 0`, `p = 1` on `[10,10,10]`
the first forecast is `0.7 * 10 = 7` (then `4.9`), and with `d = 1` on
`[1,2,4]` undifferencing yields `[5.4, 6.38]`. -/
theorem claim_C7_arima :
    (∀ (hist : List ℝ) (opts : ForecastOptions) (a b : Option ℕ),
      (arima hist { opts with q := a }).forecast =
          (arima hist { opts with q := b }).forecast ∧
        (arima hist { opts with q := a }).predictionIntervals =
          (arima hist { opts with q := b }).predictionIntervals) ∧
    arima [10, 10, 10] { method := "arima", periods := 2, p := some 1 } =
      { method := "arima"
        historicalData := [10, 10, 10]
        forecast := [7, 4.9]
        predictionIntervals := [⟨7, 7⟩, ⟨4.9, 4.9⟩]
        statistics := [("p", 1), ("d", 0), ("q", 1)] } ∧
    (arima [1, 2, 4] { method := "arima", periods := 2, p := some 1, d := some 1 }).forecast =
      [5.4, 6.38] ∧
    (arima [1, 2, 4] { method := "arima", periods := 2, p := some 1, d := some 1 }).predictionIntervals =
      [⟨5.4 - 1.96 * Real.sqrt (14 / 9), 5.4 + 1.96 * Real.sqrt (14 / 9)⟩,
       ⟨6.38 - 1.96 * Real.sqrt (14 / 9) * Real.sqrt 2,
        6.38 + 1.96 * Real.sqrt (14 / 9) * Real.sqrt 2⟩] := by
  have hr1 : List.range 1 = [0] := rfl
  refine ⟨fun hist opts a b => ⟨rfl, rfl⟩, ?_, ?_, ?_⟩ <;>
    norm_num [arima, jsOrNat, arForecast, arStep, undiffLoop, undiff, diffN, diff,
      standardDeviation, mkIntervals, List.enum, List.enumFrom, Real.sqrt_zero,
      Real.sqrt_one, PredInterval.mk.injEq, hr1]

section InvariantLemmas

theorem linearRegression_invariant (hist : List ℝ) (opts : ForecastOptions) :
    (linearRegression hist opts).forecast.length = opts.periods ∧
    (linearRegression hist opts).predictionIntervals.length = opts.periods ∧
    ∀ i, i < opts.periods →
      ((linearRegression hist opts).predictionIntervals.getD i ⟨0, 0⟩).lower ≤
          (linearRegression hist opts).forecast.getD i 0 ∧
        (linearRegression hist opts).forecast.getD i 0 ≤
          ((linearRegression hist opts).predictionIntervals.getD i ⟨0, 0⟩).upper := by
  simp only [linearRegression]
  refine ⟨by simp, by simp [mkIntervals_length], ?_⟩
  intro i hi
  exact mkIntervals_bounds _ _ (fun j => by positivity) i (by simpa using hi)

theorem exponentialSmoothing_invariant (hist : List ℝ) (opts : ForecastOptions) :
    (exponentialSmoothing hist opts).forecast.length = opts.periods ∧
    (exponentialSmoothing hist opts).predictionIntervals.length = opts.periods ∧
    ∀ i, i < opts.periods →
      ((exponentialSmoothing hist opts).predictionIntervals.getD i ⟨0, 0⟩).lower ≤
          (exponentialSmoothing hist opts).forecast.getD i 0 ∧
        (exponentialSmoothing hist opts).forecast.getD i 0 ≤
          ((exponentialSmoothing hist opts).predictionIntervals.getD i ⟨0, 0⟩).upper := by
  simp only [exponentialSmoothing]
  refine ⟨by simp, by simp [mkIntervals_length], ?_⟩
  intro i hi
  exact mkIntervals_bounds _ _ (fun j => by positivity) i (by simpa using hi)

theorem movingAverage_invariant (hist : List ℝ) (opts : ForecastOptions)
    (r : ForecastResult) (h : movingAverage hist opts = .ok r) :
    r.forecast.length = opts.periods ∧
    r.predictionIntervals.length = opts.periods ∧
    ∀ i, i < opts.periods →
      (r.predictionIntervals.getD i ⟨0, 0⟩).lower ≤ r.forecast.getD i 0 ∧
        r.forecast.getD i 0 ≤ (r.predictionIntervals.getD i ⟨0, 0⟩).upper := by
  simp only [movingAverage] at h
  split at h
  · exact absurd h (by simp)
  · rw [Except.ok.injEq] at h
    subst h
    dsimp only
    refine ⟨by simp, by simp [mkIntervals_length], ?_⟩
    intro i hi
    exact mkIntervals_bounds _ _ (fun j => by positivity) i (by simpa using hi)

theorem arima_invariant (hist : List ℝ) (opts : ForecastOptions) :
    (arima hist opts).forecast.length = opts.periods ∧
    (arima hist opts).predictionIntervals.length = opts.periods ∧
    ∀ i, i < opts.periods →
      ((arima hist opts).predictionIntervals.getD i ⟨0, 0⟩).lower ≤
          (arima hist opts).forecast.getD i 0 ∧
        (arima hist opts).forecast.getD i 0 ≤
          ((arima hist opts).predictionIntervals.getD i ⟨0, 0⟩).upper := by
  simp only [arima]
  have hlen : ∀ fc : List ℝ, fc.length = opts.periods →
      (mkIntervals fc (fun i => 1.96 * standardDeviation hist * Real.sqrt ((i : ℝ) + 1))).length
        = opts.periods := by
    intro fc hfc
    rw [mkIntervals_length, hfc]
  refine ⟨by simp [undiffLoop_length, arForecast_length], ?_, ?_⟩
  · simp [mkIntervals_length, undiffLoop_length, arForecast_length]
  · intro i hi
    refine mkIntervals_bounds _ _ (fun j => ?_) i ?_
    · have h0 : 0 ≤ standardDeviation hist := by
        simp only [standardDeviation]
        exact Real.sqrt_nonneg _
      have h1 : 0 ≤ Real.sqrt ((j : ℝ) + 1) := Real.sqrt_nonneg _
      have h2 : (0 : ℝ) ≤ 1.96 := by norm_num
      exact mul_nonneg (mul_nonneg h2 h0) h1
    · simp [undiffLoop_length, arForecast_length, hi]

end InvariantLemmas

theorem monteCarlo_lengths (hist : List JsNum) (opts : MCOptions) (draws : ℕ → ℝ) :
    (monteCarloSimulationJs hist opts draws).forecast.length = jsOrNat opts.periods 5 ∧
      (monteCarloSimulationJs hist opts draws).predictionIntervals.length =
        jsOrNat opts.periods 5 := by
  constructor <;> simp [monteCarloSimulationJs]

/-- Claim C1 (amended): for every input accepted by `generateForecast` the
result satisfies `forecast.length = predictionIntervals.length = periods` and
`lower[i] ≤ forecast[i] ≤ upper[i]` for all `i`; `monteCarloSimulation` also
satisfies the length invariant (for the effective `periods`), but — as the
counterexample shows — its mean point forecast need not lie between the
index-based percentile bounds, so the ordering clause holds only for the four
dispatched methods. -/
theorem claim_C1_result_invariant :
    (∀ (hist : List ℝ) (opts : ForecastOptions) (r : ForecastResult),
      generateForecast hist opts = .ok r →
        r.forecast.length = opts.periods ∧
          r.predictionIntervals.length = opts.periods ∧
          ∀ i, i < opts.periods →
            (r.predictionIntervals.getD i ⟨0, 0⟩).lower ≤ r.forecast.getD i 0 ∧
              r.forecast.getD i 0 ≤ (r.predictionIntervals.getD i ⟨0, 0⟩).upper) ∧
    (∀ (hist : List JsNum) (opts : MCOptions) (draws : ℕ → ℝ),
      (monteCarloSimulationJs hist opts draws).forecast.length = jsOrNat opts.periods 5 ∧
        (monteCarloSimulationJs hist opts draws).predictionIntervals.length =
          jsOrNat opts.periods 5) := by
  constructor
  · intro hist opts r h
    unfold generateForecast at h
    split_ifs at h with h1 h2 h3 h4 h5
    any_goals cases h
    · exact linearRegression_invariant hist opts
    · exact exponentialSmoothing_invariant hist opts
    · exact movingAverage_invariant hist opts r h
    · exact arima_invariant hist opts
  · exact monteCarlo_lengths

/-- Witness for C1: concrete instantiation at `[1,2,3]` with the default
(linear) options, and at a one-element series for the Monte-Carlo lengths. -/
theorem claim_C1_result_invariant_witness :
    (linearRegression [1, 2, 3] {}).forecast.length = 5 ∧
    ((linearRegression [1, 2, 3] {}).predictionIntervals.getD 0 ⟨0, 0⟩).lower ≤
      (linearRegression [1, 2, 3] {}).forecast.getD 0 0 ∧
    (monteCarloSimulationJs [JsNum.num 1] {} (fun _ => 0)).forecast.length = 5 := by
  have h1 := claim_C1_result_invariant.1 [1, 2, 3] {} (linearRegression [1, 2, 3] {})
    (by simp [generateForecast])
  have h2 := claim_C1_result_invariant.2 [JsNum.num 1] {} (fun _ => 0)
  exact ⟨h1.1, (h1.2.2 0 (by norm_num)).1, h2.1⟩

/-- Claim C9: no operation mutates the input series — in this pure model,
every successful result of `generateForecast` (any method, ARIMA's working
buffer included) and every `monteCarloSimulation` result echoes the input
series unchanged in its `historicalData` field. -/
theorem claim_C9_input_not_mutated :
    (∀ (hist : List ℝ) (opts : ForecastOptions) (r : ForecastResult),
      generateForecast hist opts = .ok r → r.historicalData = hist) ∧
    (∀ (hist : List JsNum) (opts : MCOptions) (draws : ℕ → ℝ),
      (monteCarloSimulationJs hist opts draws).historicalData = hist) := by
  constructor
  · intro hist opts r h
    unfold generateForecast at h
    split_ifs at h with h1 h2 h3 h4 h5
    any_goals cases h
    · rfl
    · rfl
    · simp only [movingAverage] at h
      split at h
      · cases h
      · simp only [Except.ok.injEq] at h
        subst h
        rfl
    · rfl
  · intro hist opts draws
    rfl

/-- Witness for C9: the ARIMA result on `[10, 20]` echoes the input. -/
theorem claim_C9_input_not_mutated_witness :
    (arima [10, 20] { method := "arima" }).historicalData = [10, 20] := by
  exact claim_C9_input_not_mutated.1 [10, 20] { method := "arima" }
    (arima [10, 20] { method := "arima" }) (by simp [generateForecast])

/-- Claim C1 counterexample: on the valid series `[1,2,8]` (percent changes
`+100%`, `+300%`, so mean `2` and population stddev `1`), with 4 iterations,
1 period, confidence `0.5` and normal draws `-103, -3, -3, -3`, the simulated
values are `[-800, 0, 0, 0]`; the percentile indices are `1` and `3`, so both
interval bounds are `0`, while the mean point forecast is `-200`: the claimed
`lower ≤ forecast` fails for Monte Carlo even in exact arithmetic. -/
theorem claim_C1_counterexample :
    (monteCarloSimulationJs [.num 1, .num 2, .num 8]
        { iterations := some 4, periods := some 1, confidence := some 0.5 }
        (fun n => if n = 0 then -103 else -3)).forecast = [JsNum.num (-200)] ∧
    (monteCarloSimulationJs [.num 1, .num 2, .num 8]
        { iterations := some 4, periods := some 1, confidence := some 0.5 }
        (fun n => if n = 0 then -103 else -3)).predictionIntervals =
      [⟨JsNum.num 0, JsNum.num 0⟩] ∧
    ¬ JsNum.jsLe (JsNum.num 0) (JsNum.num (-200)) := by
  have hr4 : List.range 4 = [0, 1, 2, 3] := rfl
  have hr1 : List.range 1 = [0] := rfl
  have ht3 : Int.toNat 3 = 3 := rfl
  refine ⟨?_, ?_, by norm_num [JsNum.jsLe]⟩ <;>
    norm_num [monteCarloSimulationJs, jsOrNat, jsOrReal, percentChangesOf, jsSum,
      mcPath, jsSort, jsInsert, jsIndex, JsNum.div, JsNum.sub, JsNum.add, JsNum.neg,
      JsNum.mul, JsNum.sqrtJ, JsNum.leb, Real.sqrt_one, hr4, hr1,
      JsInterval.mk.injEq, JsNum.num.injEq, ht3]

/-- Claim C2 counterexample: `generateForecast` performs no validation of
`periods`.  With the valid series `[1,2]` and the non-positive horizon
`periods = 0` it succeeds — returning an empty forecast — instead of failing
with a validation error. -/
theorem claim_C2_counterexample :
    generateForecast [1, 2] { method := "linear", periods := 0 } =
      .ok (linearRegression [1, 2] { method := "linear", periods := 0 }) ∧
    (linearRegression [1, 2] { method := "linear", periods := 0 }).forecast = [] := by
  constructor
  · simp [generateForecast]
  · simp [linearRegression]

/-- Claim C2 (amended): `generateForecast` fails with the length validation
error exactly when the series has fewer than 2 points, with the window
validation error exactly when the method is `moving-average` and the
effective window exceeds the series length, and with the unsupported-method
error exactly when the method is outside the four recognized strings (hence
`monte-carlo` is not reachable); it succeeds in every other case — in
particular non-positive `periods` is NOT validated (see the counterexample)
and the dispatcher is a pure function with no other effects. -/
theorem claim_C2_dispatcher_errors :
    ∀ (hist : List ℝ) (opts : ForecastOptions),
      (generateForecast hist opts =
          .error (.validation "Historical data must be an array with at least 2 data points") ↔
        hist.length < 2) ∧
      (2 ≤ hist.length →
        (generateForecast hist opts = .error (.unsupportedMethod opts.method) ↔
          opts.method ∉ (["linear", "exponential", "moving-average", "arima"] : List String))) ∧
      (2 ≤ hist.length →
        (generateForecast hist opts =
            .error (.validation "Window size cannot be larger than the historical data length") ↔
          (opts.method = "moving-average" ∧ hist.length < jsOrNat opts.windowSize 3))) ∧
      ((∃ r, generateForecast hist opts = .ok r) ↔
        (2 ≤ hist.length ∧
          opts.method ∈ (["linear", "exponential", "moving-average", "arima"] : List String) ∧
          (opts.method = "moving-average" → jsOrNat opts.windowSize 3 ≤ hist.length))) := by
  intro hist opts
  unfold generateForecast
  by_cases hlen : hist.length < 2
  · simp only [if_pos hlen]
    refine ⟨by simp [hlen], fun h2 => absurd hlen (by omega),
      fun h2 => absurd hlen (by omega), ?_⟩
    simp only [reduceCtorEq, exists_false, false_iff]
    exact fun hc => absurd hc.1 (by omega)
  · have hlen2 : 2 ≤ hist.length := by omega
    simp only [if_neg hlen]
    by_cases h1 : opts.method = "linear"
    · simp [h1, hlen, hlen2]
    · by_cases h2 : opts.method = "exponential"
      · simp [h1, h2, hlen, hlen2]
      · by_cases h3 : opts.method = "moving-average"
        · simp only [if_neg h1, if_neg h2, if_pos h3, movingAverage]
          by_cases hw : jsOrNat opts.windowSize 3 > hist.length
          · simp [hw, h3, hlen, ForecastError.validation.injEq]
          · simp [hw, h3, hlen, hlen2]
            omega
        · by_cases h4 : opts.method = "arima"
          · simp [h1, h2, h3, h4, hlen, hlen2]
          · simp [h1, h2, h3, h4, hlen, hlen2]

/-- Witness for C2: at the valid series `[1,2]` the dispatcher rejects the
method string `monte-carlo` with the unsupported-method error, accepts
`linear`, and rejects a window of 10 on a 2-point series for
`moving-average`. -/
theorem claim_C2_dispatcher_errors_witness :
    generateForecast [1, 2] { method := "monte-carlo" } =
      .error (.unsupportedMethod "monte-carlo") ∧
    (∃ r, generateForecast [1, 2] { method := "linear" } = .ok r) ∧
    generateForecast [1, 2] { method := "moving-average", windowSize := some 10 } =
      .error (.validation "Window size cannot be larger than the historical data length") := by
  refine ⟨?_, ?_, ?_⟩
  · exact ((claim_C2_dispatcher_errors [1, 2] { method := "monte-carlo" }).2.1
      (by norm_num)).mpr (by simp)
  · exact (claim_C2_dispatcher_errors [1, 2] { method := "linear" }).2.2.2.mpr
      (by simp)
  · exact ((claim_C2_dispatcher_errors [1, 2]
      { method := "moving-average", windowSize := some 10 }).2.2.1 (by norm_num)).mpr
      (by simp [jsOrNat])

section JsNumLemmas

theorem JsNum.add_nan (a : JsNum) : a.add .nan = .nan := by cases a <;> rfl

theorem JsNum.nan_add (a : JsNum) : JsNum.nan.add a = .nan := by cases a <;> rfl

theorem JsNum.mul_nan (a : JsNum) : a.mul .nan = .nan := by cases a <;> rfl

theorem JsNum.nan_mul (a : JsNum) : JsNum.nan.mul a = .nan := by cases a <;> rfl

theorem JsNum.nan_div (a : JsNum) : JsNum.nan.div a = .nan := by cases a <;> rfl

theorem percentChangesOf_short (hist : List JsNum) (h : hist.length < 2) :
    percentChangesOf hist = [] := by
  cases hist with
  | nil => rfl
  | cons a t =>
    cases t with
    | nil => rfl
    | cons b r => exact absurd h (by simp)

theorem mcPath_nan (sd : JsNum) (draws : ℕ → ℝ) (k : ℕ) :
    ∀ (base : ℕ) (prev : JsNum),
      mcPath .nan sd draws base k prev = List.replicate k .nan := by
  induction k with
  | zero => intro base prev; rfl
  | succ n ih =>
    intro base prev
    simp [mcPath, JsNum.nan_add, JsNum.add_nan, JsNum.mul_nan, ih, List.replicate_succ]

theorem foldl_add_nan (l : List JsNum) : l.foldl JsNum.add .nan = .nan := by
  induction l with
  | nil => rfl
  | cons a t ih => simp [List.foldl_cons, JsNum.nan_add, ih]

theorem jsSum_replicate_nan (n : ℕ) (hn : 0 < n) :
    jsSum (List.replicate n .nan) = .nan := by
  cases n with
  | zero => exact absurd hn (by omega)
  | succ m =>
    simp [jsSum, List.replicate_succ, List.foldl_cons, JsNum.add_nan, foldl_add_nan]

theorem getD_replicate_nan (n : ℕ) : ∀ i : ℕ,
    (List.replicate n JsNum.nan).getD i .nan = .nan := by
  induction n with
  | zero => intro i; rfl
  | succ m ih =>
    intro i
    cases i with
    | zero => rfl
    | succ j => simp [List.replicate_succ, ih j]

theorem jsInsert_replicate (a : JsNum) (h : a.leb a = true) (n : ℕ) :
    jsInsert a (List.replicate n a) = List.replicate (n + 1) a := by
  cases n with
  | zero => rfl
  | succ m => simp [List.replicate_succ, jsInsert, h]

theorem jsSort_replicate (a : JsNum) (h : a.leb a = true) (n : ℕ) :
    jsSort (List.replicate n a) = List.replicate n a := by
  induction n with
  | zero => rfl
  | succ m ih =>
    rw [List.replicate_succ, jsSort, ih, jsInsert_replicate a h]
    rfl

theorem foldl_add_num (c : ℝ) (n : ℕ) : ∀ x : ℝ,
    (List.replicate n (JsNum.num c)).foldl JsNum.add (.num x) = .num (x + n * c) := by
  induction n with
  | zero => intro x; simp
  | succ m ih =>
    intro x
    rw [List.replicate_succ, List.foldl_cons]
    show (List.replicate m (JsNum.num c)).foldl JsNum.add (.num (x + c)) = _
    rw [ih (x + c)]
    congr 1
    push_cast
    ring

theorem jsSum_replicate_num (n : ℕ) (c : ℝ) :
    jsSum (List.replicate n (.num c)) = .num (n * c) := by
  rw [jsSum, foldl_add_num c n 0]
  norm_num

end JsNumLemmas

/-- Claim C10: `monteCarloSimulation` performs no input validation: for any
series with fewer than 2 points (so the percent-change list is empty and its
mean is the `NaN` of `0/0`) it returns normally a result tagged
`monte-carlo` whose forecast and prediction intervals have the effective
`periods` length with every value `NaN`, instead of raising a validation
error. -/
theorem claim_C10_monteCarlo_no_validation :
    ∀ (hist : List JsNum), hist.length < 2 →
      ∀ (itO pO : Option ℕ) (draws : ℕ → ℝ),
        (monteCarloSimulationJs hist { iterations := itO, periods := pO } draws).method =
            "monte-carlo" ∧
          (monteCarloSimulationJs hist { iterations := itO, periods := pO } draws).forecast =
            List.replicate (jsOrNat pO 5) JsNum.nan ∧
          (monteCarloSimulationJs hist
              { iterations := itO, periods := pO } draws).predictionIntervals =
            List.replicate (jsOrNat pO 5) ⟨JsNum.nan, JsNum.nan⟩ := by
  intro hist hlen itO pO draws
  have hpc := percentChangesOf_short hist hlen
  have hpos : 0 < jsOrNat itO 1000 := by
    cases itO with
    | none => norm_num [jsOrNat]
    | some v =>
      by_cases hv : v = 0
      · simp [jsOrNat, hv]
      · simp only [jsOrNat, if_neg hv]
        omega
  have hs0 : jsSum ([] : List JsNum) = .num 0 := rfl
  refine ⟨rfl, ?_, ?_⟩
  all_goals
    norm_num [monteCarloSimulationJs, hpc, hs0, JsNum.div, mcPath_nan,
      getD_replicate_nan, List.map_map, Function.comp, jsSort_replicate JsNum.nan rfl,
      jsSum_replicate_nan _ hpos, JsNum.nan_div, jsIndex, ite_self, List.map_const']

/-- Witness for C10: the one-element series `[5]` produces a normally
returned all-`NaN` forecast of default length 5. -/
theorem claim_C10_monteCarlo_no_validation_witness :
    (monteCarloSimulationJs [JsNum.num 5] {} (fun _ => 0)).forecast =
      List.replicate 5 JsNum.nan := by
  exact (claim_C10_monteCarlo_no_validation [JsNum.num 5] (by norm_num) none none
    (fun _ => 0)).2.1

theorem jsOrNat_pos (o : Option ℕ) (d : ℕ) (hd : 0 < d) : 0 < jsOrNat o d := by
  cases o with
  | none => exact hd
  | some v =>
    by_cases hv : v = 0 <;> simp [jsOrNat, hv] <;> omega

/-- Claim C8: `monteCarloSimulation` reports the arithmetic mean of the
simulated values as the point forecast and the ascending-sorted values at the
floor-percentile indices as bounds; on the constant series `[100,100,100,100]`
the percent changes have mean and standard deviation `0`, so — for every
sequence of random draws, every iteration count (the spec's 10,000 included)
and any horizon, at the default 0.95 confidence — every simulated path is
constant at the last value `100`, and point forecast and both interval bounds
all equal `100` (zero interval width) in every forecast period. -/
theorem claim_C8_monteCarlo_percentiles :
    ∀ (itO pO : Option ℕ) (draws : ℕ → ℝ),
      (monteCarloSimulationJs [.num 100, .num 100, .num 100, .num 100]
          { iterations := itO, periods := pO } draws).forecast =
        List.replicate (jsOrNat pO 5) (JsNum.num 100) ∧
      (monteCarloSimulationJs [.num 100, .num 100, .num 100, .num 100]
          { iterations := itO, periods := pO } draws).predictionIntervals =
        List.replicate (jsOrNat pO 5) ⟨JsNum.num 100, JsNum.num 100⟩ := by
  intro itO pO draws
  have hitpos : 0 < jsOrNat itO 1000 := jsOrNat_pos itO 1000 (by norm_num)
  have hitne : ((jsOrNat itO 1000 : ℕ) : ℝ) ≠ 0 := by
    exact_mod_cast Nat.pos_iff_ne_zero.mp hitpos
  have hpc : percentChangesOf [JsNum.num 100, .num 100, .num 100, .num 100] =
      [.num 0, .num 0, .num 0] := by
    norm_num [percentChangesOf, JsNum.div, JsNum.sub, JsNum.add, JsNum.neg]
  have hpath : ∀ (k base : ℕ),
      mcPath (.num 0) (.num 0) draws base k (.num 100) = List.replicate k (.num 100) := by
    intro k
    induction k with
    | zero => intro base; rfl
    | succ n ih =>
      intro base
      norm_num [mcPath, JsNum.add, JsNum.mul, ih, List.replicate_succ]
  have hsort := jsSort_replicate (JsNum.num 100) (by simp [JsNum.leb])
  have hidx : ∀ (z : ℤ), 0 ≤ z → z.toNat < jsOrNat itO 1000 →
      jsIndex (List.replicate (jsOrNat itO 1000) (JsNum.num 100)) z = .num 100 := by
    intro z hz hlt
    simp only [jsIndex, if_pos hz]
    rw [List.getD_eq_getElem _ _ (by rw [List.length_replicate]; exact hlt),
      List.getElem_replicate]
  have hit0 : (0 : ℝ) < ((jsOrNat itO 1000 : ℕ) : ℝ) := by exact_mod_cast hitpos
  constructor
  · apply List.ext_getElem
    · norm_num [monteCarloSimulationJs]
    · intro i h1 h2
      have hi : i < jsOrNat pO 5 := by simpa using h2
      have hgd : (List.replicate (jsOrNat pO 5) (JsNum.num 100)).getD i .nan = .num 100 := by
        rw [List.getD_eq_getElem _ _ (by rw [List.length_replicate]; exact hi),
          List.getElem_replicate]
      simp only [monteCarloSimulationJs, hpc]
      norm_num [jsSum, JsNum.div, JsNum.add, JsNum.sub, JsNum.neg, JsNum.mul,
        JsNum.sqrtJ, Real.sqrt_zero, hpath, hsort, foldl_add_num, hgd, hi,
        hitne, List.map_map, Function.comp, List.getElem_map,
        List.getElem_range, List.getElem_replicate, List.map_const',
        mul_div_cancel_left₀, JsNum.num.injEq]
  · apply List.ext_getElem
    · norm_num [monteCarloSimulationJs]
    · intro i h1 h2
      have hi : i < jsOrNat pO 5 := by simpa using h2
      have hgd : (List.replicate (jsOrNat pO 5) (JsNum.num 100)).getD i .nan = .num 100 := by
        rw [List.getD_eq_getElem _ _ (by rw [List.length_replicate]; exact hi),
          List.getElem_replicate]
      simp only [monteCarloSimulationJs, hpc]
      norm_num [jsSum, JsNum.div, JsNum.add, JsNum.sub, JsNum.neg, JsNum.mul,
        JsNum.sqrtJ, Real.sqrt_zero, hpath, hsort, foldl_add_num, hgd, hi,
        hitne, jsOrReal, List.map_map, Function.comp, List.getElem_map,
        List.getElem_range, List.getElem_replicate, List.map_const',
        JsInterval.mk.injEq, JsNum.num.injEq]
      refine ⟨hidx _ ?_ ?_, hidx _ ?_ ?_⟩
      · exact Int.floor_nonneg.mpr (by positivity)
      · rw [Int.toNat_lt' (by omega)]
        refine Int.floor_lt.mpr ?_
        push_cast
        nlinarith [hit0]
      · exact Int.floor_nonneg.mpr (by positivity)
      · rw [Int.toNat_lt' (by omega)]
        refine Int.floor_lt.mpr ?_
        push_cast
        nlinarith [hit0]

/-- Claim C4 (code bug): the numeric degeneracies are NOT detected.  On the
2-point series `[1,2]` the dispatcher succeeds (no degeneracy error exists in
the code), while the standard error divides by `n - 2 = 0`, so `sqrt(0/0) =
sqrt(NaN) = NaN` silently fills every prediction-interval bound of the
returned result; on the constant series `[5,5,5]` the zero total sum of
squares makes `R² = 1 - 0/0 = NaN` inside the returned statistics. -/
theorem claim_C4_degeneracy_not_detected :
    (∃ r, generateForecast [1, 2] { method := "linear" } = .ok r) ∧
    (linearRegressionJs [.num 1, .num 2] {}).predictionIntervals =
      List.replicate 5 ⟨JsNum.nan, JsNum.nan⟩ ∧
    (linearRegressionJs [.num 5, .num 5, .num 5] {}).statistics =
      [("slope", JsNum.num 0), ("intercept", JsNum.num 5), ("rSquared", JsNum.nan),
        ("rmse", JsNum.num 0)] := by
  have hr2 : List.range 2 = [0, 1] := rfl
  have hr3 : List.range 3 = [0, 1, 2] := rfl
  have hr5 : List.range 5 = [0, 1, 2, 3, 4] := rfl
  refine ⟨⟨linearRegression [1, 2] { method := "linear" }, by simp [generateForecast]⟩,
    ?_, ?_⟩ <;>
    norm_num [linearRegressionJs, jsSum, JsNum.div, JsNum.sub, JsNum.add, JsNum.neg,
      JsNum.mul, JsNum.sqrtJ, JsNum.mul_nan, JsNum.add_nan, JsNum.nan_mul,
      Real.sqrt_zero, hr2, hr3, hr5, List.enum, List.enumFrom,
      JsInterval.mk.injEq, JsNum.num.injEq, List.replicate]
